import Mathlib

/-!
Verification development for the Pollbot repository.

The repository contains three single-target watchers (pollwatch_sms.py,
pollwatch_telegram.py, pollwatch_phone.py) and a multi-target web manager
(web_app.py).  Each watcher polls a Poll Everywhere page, extracts an
activity id / accepting flag / title from the markup with ordered regex
patterns, and runs a per-tick transition step over a small persisted state
(last_seen_id, etag, last_modified, alerted_accepting_for_id).

This file gives a shallow embedding of those parts: the extraction
functions are translated pattern by pattern (regexes become explicit
matchers over character lists), and the per-tick state-update logic of each
watcher main loop becomes a pure step function on a state record.
-/

/-- Result of one conditional fetch, as the watcher loops branch on it:
a 304 response, a 2xx response carrying optional ETag / Last-Modified
headers and a body, or any other HTTP status. -/
inductive FetchResult
  | notModified
  | fetched (etagHdr : Option String) (lastModifiedHdr : Option String) (body : String)
  | httpError (status : Nat)
deriving DecidableEq

/-- The per-target persisted record kept in poll_state.json and mirrored in
the local variables of each watcher main loop: last_seen_id, etag,
last_modified, alerted_accepting_for_id.  A missing key and a null value
both embed as Option.none. -/
structure WatchState where
  lastSeenId : Option String
  etag : Option String
  lastModified : Option String
  alertedAcceptingForId : Option String
deriving DecidableEq

/-- The decision a tick makes.  wentLive and nowAccepting correspond to the
two changed = True branches (an alert is sent); wentDown labels the branch
that clears state because the activity id became absent (no alert is sent);
noChange covers every remaining case. -/
inductive Transition
  | noChange
  | wentLive
  | nowAccepting
  | wentDown
deriving DecidableEq

/-- Number of alert messages sent for one tick decision: the code sends a
message exactly when changed = True, i.e. on wentLive and nowAccepting. -/
def alertsSent : Transition → Nat
  | Transition.wentLive => 1
  | Transition.nowAccepting => 1
  | _ => 0

/-- Python truthiness of an optional string: None and the empty string are
falsy, every other string is truthy.  The watcher code branches with
plain if activity_id, so the embedding keeps the same test. -/
def truthy : Option String → Bool
  | Option.none => false
  | some s => !(s == "")

/-- One tick of state update in pollwatch_phone.py main (lines 205-271),
given the extraction result of a fresh response.  Decision order: new or
changed id (changed = True, went live); same id now accepting and not yet
latched (changed = True, now accepting); same id locked again (clear the
latch, no alert); id absent while one was seen (clear both fields, no
alert); otherwise nothing. -/
def phoneStep (st : WatchState) (a : Option String) (accepting : Bool) :
    Transition × WatchState :=
  if truthy a && !(a == st.lastSeenId) then
    -- changed branch, reason "New activity is live"
    let st1 := if truthy a then { st with lastSeenId := a }
      else { st with lastSeenId := Option.none, alertedAcceptingForId := Option.none }
    let st2 := if truthy a && accepting then { st1 with alertedAcceptingForId := a } else st1
    (Transition.wentLive, st2)
  else if truthy a && accepting && !(st.alertedAcceptingForId == a) then
    -- changed branch, reason "Activity is now accepting responses"
    let st1 := if truthy a then { st with lastSeenId := a }
      else { st with lastSeenId := Option.none, alertedAcceptingForId := Option.none }
    let st2 := if truthy a && accepting then { st1 with alertedAcceptingForId := a } else st1
    (Transition.nowAccepting, st2)
  else if truthy a && !accepting then
    -- elif activity_id and not accepting: clear the latch if it points here
    if st.alertedAcceptingForId == a then
      (Transition.noChange, { st with alertedAcceptingForId := Option.none })
    else
      (Transition.noChange, st)
  else if !(truthy a) then
    -- elif not activity_id: poll is down, clear both fields
    if !(st.lastSeenId == Option.none) then
      (Transition.wentDown,
        { st with lastSeenId := Option.none, alertedAcceptingForId := Option.none })
    else
      (Transition.noChange, st)
  else
    (Transition.noChange, st)

/-- One tick of state update in pollwatch_telegram.py main (lines 150-179).
Same two changed branches as the phone watcher, but there is no clause for
a same-id not-accepting tick, and the id-absent clause clears only
last_seen_id, leaving alerted_accepting_for_id untouched. -/
def telegramStep (st : WatchState) (a : Option String) (accepting : Bool) :
    Transition × WatchState :=
  if truthy a && !(a == st.lastSeenId) then
    let st1 := if truthy a then { st with lastSeenId := a }
      else { st with lastSeenId := Option.none }
    let st2 := if truthy a && accepting then { st1 with alertedAcceptingForId := a } else st1
    (Transition.wentLive, st2)
  else if truthy a && accepting && !(st.alertedAcceptingForId == a) then
    let st1 := if truthy a then { st with lastSeenId := a }
      else { st with lastSeenId := Option.none }
    let st2 := if truthy a && accepting then { st1 with alertedAcceptingForId := a } else st1
    (Transition.nowAccepting, st2)
  else if !(truthy a) then
    -- elif not activity_id: clear last_seen_id only
    if !(st.lastSeenId == Option.none) then
      (Transition.wentDown, { st with lastSeenId := Option.none })
    else
      (Transition.noChange, st)
  else
    (Transition.noChange, st)

/-- One tick of state update in pollwatch_sms.py main (lines 147-163).
Only the two changed branches exist; last_id is updated as
activity_id or last_id, and nothing at all happens on a tick whose id is
absent or unchanged without a fresh acceptance. -/
def smsStep (st : WatchState) (a : Option String) (accepting : Bool) :
    Transition × WatchState :=
  if truthy a && !(a == st.lastSeenId) then
    let st1 := { st with lastSeenId := if truthy a then a else st.lastSeenId }
    let st2 := if truthy a && accepting then { st1 with alertedAcceptingForId := a } else st1
    (Transition.wentLive, st2)
  else if truthy a && accepting && !(st.alertedAcceptingForId == a) then
    let st1 := { st with lastSeenId := if truthy a then a else st.lastSeenId }
    let st2 := if truthy a && accepting then { st1 with alertedAcceptingForId := a } else st1
    (Transition.nowAccepting, st2)
  else
    (Transition.noChange, st)

/-- Run a step function over a list of per-tick extraction results,
collecting the decisions and the final state. -/
def runSteps (step : WatchState → Option String → Bool → Transition × WatchState)
    (st : WatchState) : List (Option String × Bool) → List Transition × WatchState
  | [] => ([], st)
  | e :: es =>
    let r := step st e.1 e.2
    let rest := runSteps step r.2 es
    (r.1 :: rest.1, rest.2)

/-- Number of nowAccepting decisions in a list of tick decisions. -/
def countNowAccepting (ts : List Transition) : Nat :=
  ts.countP (fun t => t == Transition.nowAccepting)

/-- The double-quote character, kept out of character-literal syntax. -/
def dquote : Char := Char.ofNat 34

/-- Case-insensitive character comparison, modelling the re.I flag every
pattern in the repository is compiled with. -/
def charEqCI (a b : Char) : Bool := a.toLower == b.toLower

/-- Match a literal pattern case-insensitively at the head of the input,
returning the remaining input on success. -/
def litAt : List Char → List Char → Option (List Char)
  | [], l => some l
  | _ :: _, [] => Option.none
  | p :: ps, c :: cs => if charEqCI p c then litAt ps cs else Option.none

/-- Greedy match of one or more digits at the head of the input, as the
regex fragment of one-or-more digits captures; returns the digit run and
the rest.  A following literal in every pattern that uses this fragment is
a non-digit, so maximal munch agrees with the regex engine. -/
def digitsAt (l : List Char) : Option (List Char × List Char) :=
  let p := l.span (fun c => c.isDigit)
  if p.1 == [] then Option.none else some p

/-- Greedy match of one or more characters satisfying ok at the head of
the input; used for negated character classes whose following literal
starts with an excluded character, where maximal munch agrees with the
regex engine. -/
def classAt (ok : Char → Bool) (l : List Char) : Option (List Char × List Char) :=
  let p := l.span ok
  if p.1 == [] then Option.none else some p

/-- Try a matcher at every position left to right, as re.search does. -/
def searchAt {α : Type} (f : List Char → Option α) : List Char → Option α
  | [] => f []
  | c :: cs =>
    match f (c :: cs) with
    | some r => some r
    | Option.none => searchAt f cs

/-- Does a boolean matcher succeed at some position, left to right. -/
def searchSome (f : List Char → Bool) : List Char → Bool
  | [] => f []
  | c :: cs => f (c :: cs) || searchSome f cs

/-- After at least one class character has been consumed, try the
continuation at every further position reachable through class characters.
This realizes the backtracking of a one-or-more negated class followed by
a literal whose characters are themselves inside the class. -/
def scanClassThen (ok : Char → Bool) (f : List Char → Bool) : List Char → Bool
  | [] => f []
  | c :: cs => f (c :: cs) || (ok c && scanClassThen ok f cs)

/-- One or more class characters followed by a continuation, with full
backtracking over where the class run ends. -/
def classPlusThen (ok : Char → Bool) (f : List Char → Bool) : List Char → Bool
  | [] => false
  | c :: cs => ok c && scanClassThen ok f cs

/-- Case-insensitive substring test: the model of searching for a fixed
word or phrase of the hint vocabularies. -/
def containsCI (needle hay : String) : Bool :=
  searchSome (fun l => (litAt needle.toList l).isSome) hay.toList

/-- Python str whitespace for the regex shorthand and for strip. -/
def isPySpace (c : Char) : Bool :=
  c == ' ' || c == Char.ofNat 9 || c == Char.ofNat 10 || c == Char.ofNat 13 ||
  c == Char.ofNat 11 || c == Char.ofNat 12


/-- Matcher for the pattern id="response_root_question_(\d+)" at one
position (choice polls; pollwatch_phone ID_PATTERNS entry 1, web_app
entry 1). -/
def matchResponseRootAt (l : List Char) : Option String := do
  let r1 ← litAt ("id=\"response_root_question_".toList) l
  let (ds, r2) ← digitsAt r1
  let _ ← litAt ("\"".toList) r2
  pure (String.mk ds)

/-- Matcher for the pattern id="all_submissions_question_(\d+)" at one
position (text polls; pollwatch_phone entry 2, pollwatch_telegram entry 1,
web_app entry 2). -/
def matchAllSubmissionsAt (l : List Char) : Option String := do
  let r1 ← litAt ("id=\"all_submissions_question_".toList) l
  let (ds, r2) ← digitsAt r1
  let _ ← litAt ("\"".toList) r2
  pure (String.mk ds)

/-- Matcher for the pattern action="/a/questions/(\d+)/responses without a
closing quote (pollwatch_phone entry 3, web_app entry 3, and the first
alternative of the response-forms check). -/
def matchActionResponsesAt (l : List Char) : Option String := do
  let r1 ← litAt ("action=\"/a/questions/".toList) l
  let (ds, r2) ← digitsAt r1
  let _ ← litAt ("/responses".toList) r2
  pure (String.mk ds)

/-- Matcher for the pattern action="/a/questions/(\d+)/responses" with the
closing quote (pollwatch_telegram entry 2). -/
def matchActionResponsesQuotedAt (l : List Char) : Option String := do
  let r1 ← litAt ("action=\"/a/questions/".toList) l
  let (ds, r2) ← digitsAt r1
  let _ ← litAt ("/responses\"".toList) r2
  pure (String.mk ds)

/-- Matcher for src="/multiple_choice_polls/([text without quote or slash]+)/respond
(pollwatch_phone entry 4). -/
def matchChoiceSrcRespondAt (l : List Char) : Option String := do
  let r1 ← litAt ("src=\"/multiple_choice_polls/".toList) l
  let (xs, r2) ← classAt (fun c => !(c == dquote) && !(c == '/')) r1
  let _ ← litAt ("/respond".toList) r2
  pure (String.mk xs)

/-- Matcher for src="/text_polls/([text without quote or slash]+)/respond
(pollwatch_phone entry 5). -/
def matchTextSrcRespondAt (l : List Char) : Option String := do
  let r1 ← litAt ("src=\"/text_polls/".toList) l
  let (xs, r2) ← classAt (fun c => !(c == dquote) && !(c == '/')) r1
  let _ ← litAt ("/respond".toList) r2
  pure (String.mk xs)

/-- Matcher for data-activity-id="([non-quote]+)" (generic pattern shared
by all variants). -/
def matchDataActivityIdAt (l : List Char) : Option String := do
  let r1 ← litAt ("data-activity-id=\"".toList) l
  let (xs, r2) ← classAt (fun c => !(c == dquote)) r1
  let _ ← litAt ("\"".toList) r2
  pure (String.mk xs)

/-- Matcher for name="activity_id" then whitespace then value="([non-quote]+)"
(generic pattern shared by all variants). -/
def matchNameActivityIdAt (l : List Char) : Option String := do
  let r1 ← litAt ("name=\"activity_id\"".toList) l
  let (_, r2) ← classAt isPySpace r1
  let r3 ← litAt ("value=\"".toList) r2
  let (xs, r4) ← classAt (fun c => !(c == dquote)) r3
  let _ ← litAt ("\"".toList) r4
  pure (String.mk xs)

/-- Matcher for the JSON bootstrap fallback "activityId" then optional
whitespace, a colon, optional whitespace, and a quoted value (generic
pattern shared by all variants). -/
def matchJsonActivityIdAt (l : List Char) : Option String := do
  let r1 ← litAt ("\"activityId\"".toList) l
  let p1 := r1.span isPySpace
  let r2 ← litAt (":".toList) p1.2
  let p2 := r2.span isPySpace
  let r3 ← litAt ("\"".toList) p2.2
  let (xs, r4) ← classAt (fun c => !(c == dquote)) r3
  let _ ← litAt ("\"".toList) r4
  pure (String.mk xs)

/-- The ID_PATTERNS loop of pollwatch_phone.py (lines 35-49, 78-84): the
first pattern in the list that matches anywhere in the markup wins. -/
def phoneFindId (l : List Char) : Option String :=
  searchAt matchResponseRootAt l <|>
  searchAt matchAllSubmissionsAt l <|>
  searchAt matchActionResponsesAt l <|>
  searchAt matchChoiceSrcRespondAt l <|>
  searchAt matchTextSrcRespondAt l <|>
  searchAt matchDataActivityIdAt l <|>
  searchAt matchNameActivityIdAt l <|>
  searchAt matchJsonActivityIdAt l

/-- The ID_PATTERNS loop of pollwatch_telegram.py (lines 36-42, 73-78). -/
def telegramFindId (l : List Char) : Option String :=
  searchAt matchAllSubmissionsAt l <|>
  searchAt matchActionResponsesQuotedAt l <|>
  searchAt matchDataActivityIdAt l <|>
  searchAt matchNameActivityIdAt l <|>
  searchAt matchJsonActivityIdAt l

/-- The ID_PATTERNS loop of pollwatch_sms.py (lines 35-39, 64-69). -/
def smsFindId (l : List Char) : Option String :=
  searchAt matchDataActivityIdAt l <|>
  searchAt matchNameActivityIdAt l <|>
  searchAt matchJsonActivityIdAt l

/-- One-position matcher for the turbo-frame respond check of
pollwatch_phone.py line 76: a turbo-frame tag opener, one or more
non-closing-bracket characters, src=", one or more non-quote characters,
and /respond; both classes backtrack as in the regex engine. -/
def turboRespondAt (l : List Char) : Bool :=
  match litAt ("<turbo-frame".toList) l with
  | Option.none => false
  | some r =>
    classPlusThen (fun c => !(c == '>'))
      (fun r2 =>
        match litAt ("src=\"".toList) r2 with
        | Option.none => false
        | some r3 =>
          classPlusThen (fun c => !(c == dquote))
            (fun r4 => (litAt ("/respond".toList) r4).isSome) r3)
      r

/-- respond_present of pollwatch_phone.py line 76. -/
def respondPresent (html : String) : Bool :=
  searchSome turboRespondAt html.toList

/-- The ACCEPTING_HINTS vocabulary shared by pollwatch_phone.py,
pollwatch_telegram.py and web_app.py: a case-insensitive search for any of
the listed phrases. -/
def acceptingHints (html : String) : Bool :=
  containsCI "audience submissions" html ||
  containsCI "responding to the presenter" html ||
  containsCI "you may respond" html ||
  containsCI "accepting responses" html ||
  containsCI "respond" html ||
  containsCI "submit" html ||
  containsCI "send response" html ||
  containsCI "vote now" html

/-- The smaller ACCEPTING_HINTS vocabulary of pollwatch_sms.py. -/
def smsAcceptingHints (html : String) : Bool :=
  containsCI "accepting responses" html ||
  containsCI "respond" html ||
  containsCI "submit" html ||
  containsCI "send response" html ||
  containsCI "vote now" html

/-- WAITING_HINT: a case-insensitive search for the word waiting. -/
def waitingHint (html : String) : Bool := containsCI "waiting" html

/-- has_response_forms of pollwatch_phone.py line 110 and web_app.py line
77: the question-response action path, or one of two literal response
markers. -/
def responseFormsPresent (html : String) : Bool :=
  (searchAt matchActionResponsesAt html.toList).isSome ||
  containsCI "data-input--choice" html ||
  containsCI "data-response-to" html

/-- One-position matcher for a heading tag with a fixed level digit: the
tag opener, any run of non-closing-bracket characters, the closing
bracket, a captured run of 5-to-200 (or minLen-to-200) non-tag characters,
and the matching end tag.  Mirrors the title regexes of
pollwatch_phone.py lines 94-100 and pollwatch_telegram.py lines 82-84. -/
def headingAt (d : Char) (minLen : Nat) (l : List Char) : Option (List Char) :=
  match litAt ['<', 'h', d] l with
  | Option.none => Option.none
  | some r1 =>
    let p := r1.span (fun c => !(c == '>'))
    match litAt ['>'] p.2 with
    | Option.none => Option.none
    | some r2 =>
      let q := r2.span (fun c => !(c == '<'))
      if minLen ≤ q.1.length && q.1.length ≤ 200 then
        match litAt ['<', '/', 'h', d, '>'] q.2 with
        | Option.none => Option.none
        | some _ => some q.1
      else Option.none

/-- The heading level digits accepted by the generic heading pattern. -/
def headingDigits : List Char := ['1', '2', '3', '4', '5', '6']

/-- One-position matcher for the generic heading pattern of
pollwatch_phone.py line 100: any heading level 1-6, with at least 10
captured characters, closed by any heading end tag of level 1-6. -/
def headingAnyAt (minLen : Nat) (l : List Char) : Option (List Char) :=
  match litAt ['<', 'h'] l with
  | Option.none => Option.none
  | some r0 =>
    match r0 with
    | [] => Option.none
    | d :: r1 =>
      if headingDigits.contains d then
        let p := r1.span (fun c => !(c == '>'))
        match litAt ['>'] p.2 with
        | Option.none => Option.none
        | some r2 =>
          let q := r2.span (fun c => !(c == '<'))
          if minLen ≤ q.1.length && q.1.length ≤ 200 then
            match litAt ['<', '/', 'h'] q.2 with
            | Option.none => Option.none
            | some r3 =>
              match r3 with
              | [] => Option.none
              | d2 :: r4 =>
                if headingDigits.contains d2 then
                  match litAt ['>'] r4 with
                  | Option.none => Option.none
                  | some _ => some q.1
                else Option.none
          else Option.none
      else Option.none

/-- Collapse adjacent spaces into one. -/
def collapseSpaces : List Char → List Char
  | [] => []
  | [c] => [c]
  | a :: b :: rest =>
    if a == ' ' && b == ' ' then collapseSpaces (b :: rest)
    else a :: collapseSpaces (b :: rest)

/-- Whitespace normalization applied to a captured title: every maximal
whitespace run becomes a single space (re.sub of a whitespace run with one
space), then leading and trailing whitespace is stripped.  Realized as a
pointwise whitespace-to-space map followed by collapsing runs, which
produces the same string. -/
def normalizeWs (l : List Char) : String :=
  let mapped := l.map (fun c => if isPySpace c then ' ' else c)
  let collapsed := collapseSpaces mapped
  let stripped :=
    ((collapsed.dropWhile (fun c => c == ' ')).reverse.dropWhile (fun c => c == ' ')).reverse
  String.mk stripped

/-- Title extraction of pollwatch_phone.py lines 92-102: heading level 1
with at least 5 characters, then level 2 with at least 5, then any level
with at least 10; the first match is whitespace-normalized. -/
def phoneTitle (l : List Char) : Option String :=
  match searchAt (headingAt '1' 5) l with
  | some t => some (normalizeWs t)
  | Option.none =>
    match searchAt (headingAt '2' 5) l with
    | some t => some (normalizeWs t)
    | Option.none =>
      match searchAt (headingAnyAt 10) l with
      | some t => some (normalizeWs t)
      | Option.none => Option.none

/-- Title extraction of pollwatch_telegram.py lines 81-86: heading level 1
then level 2, each with at least 5 characters. -/
def telegramTitle (l : List Char) : Option String :=
  match searchAt (headingAt '1' 5) l with
  | some t => some (normalizeWs t)
  | Option.none =>
    match searchAt (headingAt '2' 5) l with
    | some t => some (normalizeWs t)
    | Option.none => Option.none

/-- The part of pollwatch_telegram.py extract_activity after the waiting
short-circuit (lines 73-89): id scan, title grab, accepting hints. -/
def telegramScan (html : String) : Option String × Bool × Option String :=
  let l := html.toList
  let activity_id := telegramFindId l
  let title := telegramTitle l
  let accepting := acceptingHints html
  (activity_id, accepting, title)

/-- extract_activity of pollwatch_telegram.py (lines 64-89): if the markup
shows the waiting hint anywhere, return the all-absent result at once;
otherwise scan. -/
def telegramExtract (html : String) : Option String × Bool × Option String :=
  if waitingHint html then (Option.none, false, Option.none)
  else telegramScan html

/-- The part of pollwatch_phone.py extract_activity after the waiting
short-circuit (lines 91-116): title grab, hint vocabulary, response-form
markers, and the respond-frame fallback, each only consulted while the
accepting flag is still false. -/
def phoneScan (html : String) : Option String × Bool × Option String :=
  let l := html.toList
  let activity_id := phoneFindId l
  let title := phoneTitle l
  let accepting0 := acceptingHints html
  let accepting1 := if !accepting0 && responseFormsPresent html then true else accepting0
  let accepting2 := if !accepting1 && respondPresent html then true else accepting1
  (activity_id, accepting2, title)

/-- extract_activity of pollwatch_phone.py (lines 71-116): the short-circuit
to the all-absent result fires only when no id pattern matched AND the
waiting hint is present AND no turbo-frame respond fragment is present. -/
def phoneExtract (html : String) : Option String × Bool × Option String :=
  if !(truthy (phoneFindId html.toList)) && waitingHint html && !(respondPresent html) then
    (Option.none, false, Option.none)
  else phoneScan html

/-- extract_activity of pollwatch_sms.py (lines 59-81).  After the id
pattern loop, line 73 calls re.search with the flags constant re.I in the
place of the string argument (the html argument is missing), so the call
raises TypeError on every input before the title or the accepting flag can
be computed; the embedding returns that exception. -/
def smsExtract (html : String) :
    Except String (Option String × Bool × Option String) :=
  let _activity_id := smsFindId html.toList
  Except.error "TypeError: expected string or bytes-like object"

/-- Caching-token refresh of a fresh response: in the watcher loops the new
header value is taken with a Python or-fallback, so a missing or empty
header keeps the previous token. -/
def updateToken (hdr : Option String) (old : Option String) : Option String :=
  match hdr with
  | Option.none => old
  | some s => if s == "" then old else some s

/-- One loop iteration of pollwatch_telegram.py main (lines 131-186) after
the fetch, as a function of the fetch result: a 304 response and a non-2xx
response leave the state untouched and decide nothing; a 2xx response
refreshes the caching tokens, extracts, and steps. -/
def telegramTick (st : WatchState) (r : FetchResult) : Transition × WatchState :=
  match r with
  | FetchResult.notModified => (Transition.noChange, st)
  | FetchResult.httpError _ => (Transition.noChange, st)
  | FetchResult.fetched e lm body =>
    let st1 := { st with
      etag := updateToken e st.etag,
      lastModified := updateToken lm st.lastModified }
    let ex := telegramExtract body
    telegramStep st1 ex.1 ex.2.1

/-- One loop iteration of pollwatch_sms.py main (lines 133-170) after the
fetch.  On a 2xx response the tokens are refreshed and extract_activity is
called; since that call always raises, the iteration ends in the
per-tick exception handler with the token-refreshed in-memory state, which
the embedding reports as the error case. -/
def smsTick (st : WatchState) (r : FetchResult) :
    Except WatchState (Transition × WatchState) :=
  match r with
  | FetchResult.notModified => Except.ok (Transition.noChange, st)
  | FetchResult.httpError _ => Except.ok (Transition.noChange, st)
  | FetchResult.fetched e lm body =>
    let st1 := { st with
      etag := updateToken e st.etag,
      lastModified := updateToken lm st.lastModified }
    match smsExtract body with
    | Except.error _ => Except.error st1
    | Except.ok ex => Except.ok (smsStep st1 ex.1 ex.2.1)

/-- JSON values, as json.load returns them: null, booleans, numbers,
strings, arrays and objects.  Numbers are modelled as integers, which is
enough for the state file this program reads and writes. -/
inductive Json
  | jnull
  | jbool (b : Bool)
  | jnum (n : Int)
  | jstr (s : String)
  | jarr (xs : List Json)
  | jobj (kvs : List (String × Json))

/-- Is a JSON value a dict. -/
def Json.isObj : Json → Bool
  | Json.jobj _ => true
  | _ => false

/-- load_state of pollwatch_sms.py (lines 46-53) and web_app.py (lines
41-48).  The on-disk file is abstracted by its parse outcome, since the
parsing itself is done by the json library: Option.none is a missing
file, Except.error is a file whose content json.load rejects, Except.ok v
is a file whose content parses to the JSON value v.  A missing or
unparsable file yields the empty dict; otherwise the parsed value is
returned as-is, whether or not it is a dict. -/
def loadState (file : Option (Except Unit Json)) : Json :=
  match file with
  | Option.none => Json.jobj []
  | some (Except.error _) => Json.jobj []
  | some (Except.ok v) => v

/-- One entry of the active_monitors registry of web_app.py: the fields
start_monitor writes, minus the wall-clock started_at timestamp. -/
structure MonitorInfo where
  pollUrl : String
  phoneNumber : String
  status : String
deriving DecidableEq

/-- Lookup in the registry, modelling a Python dict keyed by monitor id. -/
def regGet (ms : List (String × MonitorInfo)) (k : String) : Option MonitorInfo :=
  (ms.find? (fun p => p.1 == k)).map (fun p => p.2)

/-- Keyed insertion or replacement in the registry. -/
def regSet (ms : List (String × MonitorInfo)) (k : String) (v : MonitorInfo) :
    List (String × MonitorInfo) :=
  (k, v) :: ms.filter (fun p => !(p.1 == k))

/-- The Python strip() call applied to both request fields: remove
leading and trailing whitespace. -/
def pyStrip (s : String) : String :=
  String.mk ((s.toList.dropWhile isPySpace).reverse.dropWhile isPySpace).reverse

/-- The Python startswith test, case-sensitive. -/
def strStartsWith (s pre : String) : Bool :=
  List.isPrefixOf pre.toList s.toList

/-- Stand-in for the hashlib.md5 hex digest truncated to 12 characters
(web_app.py line 505).  The digest is an external library primitive; the
claims depend only on the id being a fixed pure function of the
concatenated poll_url and phone_number, so any concrete deterministic
function serves. -/
def md5Hex12 (s : String) : String :=
  let n := s.toList.foldl (fun h c => (h * 31 + c.toNat) % (2 ^ 48)) 7
  ((Nat.toDigits 16 n).take 12).asString

/-- The monitor id of web_app.py line 505: a deterministic digest of the
concatenation of the poll url and the phone number. -/
def monitorId (pollUrl phoneNumber : String) : String :=
  md5Hex12 (pollUrl ++ phoneNumber)

/-- Outcome of the start endpoint: a 400 for missing or invalid fields, a
400 conflict when an identical monitor is already running, or success with
the new monitor id. -/
inductive StartResult
  | badRequest (msg : String)
  | conflict (msg : String)
  | started (monitorId : String)
deriving DecidableEq

/-- Result of one call to the start endpoint: the HTTP-level result, the
registry afterwards, and whether a watch thread was spawned. -/
structure StartOutcome where
  result : StartResult
  monitors : List (String × MonitorInfo)
  threadSpawned : Bool
deriving DecidableEq

/-- start_monitor of web_app.py (lines 490-524): strip both fields, reject
empty fields and a url not starting with http, compute the deterministic
monitor id, reject when an entry with that id is already running, and
otherwise register a starting entry and spawn the watch thread. -/
def startMonitor (monitors : List (String × MonitorInfo))
    (pollUrlRaw phoneRaw : String) : StartOutcome :=
  let poll_url := pyStrip pollUrlRaw
  let phone_number := pyStrip phoneRaw
  if poll_url == "" || phone_number == "" then
    ⟨StartResult.badRequest "Poll URL and phone number are required", monitors, false⟩
  else if !(strStartsWith poll_url "http") then
    ⟨StartResult.badRequest "Invalid poll URL", monitors, false⟩
  else
    let monitor_id := monitorId poll_url phone_number
    match regGet monitors monitor_id with
    | some info =>
      if info.status == "running" then
        ⟨StartResult.conflict "Monitor already exists for this URL and phone number",
          monitors, false⟩
      else
        ⟨StartResult.started monitor_id,
          regSet monitors monitor_id ⟨poll_url, phone_number, "starting"⟩, true⟩
    | Option.none =>
      ⟨StartResult.started monitor_id,
        regSet monitors monitor_id ⟨poll_url, phone_number, "starting"⟩, true⟩

/-- The status write of web_app.py line 132: once the spawned monitor
thread reaches its loop it marks its registry entry running. -/
def markRunning (ms : List (String × MonitorInfo)) (k : String) :
    List (String × MonitorInfo) :=
  ms.map (fun p => if p.1 == k then (p.1, { p.2 with status := "running" }) else p)

/-- Helper: a nonempty-string id is truthy. -/
theorem truthy_some {i : String} (h : i ≠ "") : truthy (some i) = true := by
  simp [truthy, h]

/-- C2: extract(markup) is claimed pure, total, and never raising; the sms
variant contradicts this.  pollwatch_sms.py line 73 calls re.search with
the flags constant in the place of the string argument, so extract_activity
raises TypeError on every input, including the empty markup evaluated
here. -/
theorem c2_sms_extract_raises :
    smsExtract "" = Except.error "TypeError: expected string or bytes-like object" := rfl

/-- C7: a 304 response leaves the whole watch state unchanged and decides
nothing, for the telegram and the sms loop alike; extraction and the
transition step are structurally not reached on this branch. -/
theorem c7_not_modified_frame (st : WatchState) :
    telegramTick st FetchResult.notModified = (Transition.noChange, st) ∧
    smsTick st FetchResult.notModified = Except.ok (Transition.noChange, st) :=
  ⟨rfl, rfl⟩

/-- C10 counterexample: a state file whose content is the valid JSON text 3
makes load_state return the number 3, not a dict, so the claim that
load_state returns a dict for every on-disk content is false. -/
theorem c10_counterexample :
    loadState (some (Except.ok (Json.jnum 3))) = Json.jnum 3 ∧
    (loadState (some (Except.ok (Json.jnum 3)))).isObj = false :=
  ⟨rfl, rfl⟩

/-- C10 amended: load_state never raises; it returns the empty dict when
the file is missing or its content fails to parse as JSON, and otherwise
returns the parsed JSON value as-is, which is a dict exactly when the file
content is a JSON object. -/
theorem c10_load_state :
    loadState Option.none = Json.jobj [] ∧
    (∀ e, loadState (some (Except.error e)) = Json.jobj []) ∧
    (∀ v, loadState (some (Except.ok v)) = v) ∧
    (∀ v, (loadState (some (Except.ok v))).isObj = v.isObj) :=
  ⟨rfl, fun _ => rfl, fun _ => rfl, fun _ => rfl⟩

/-- C6 counterexample: markup holding the waiting hint next to a
turbo-frame respond fragment.  The telegram extractor short-circuits to the
all-absent result on the waiting hint alone, although a response marker is
present and the scan would have reported accepting, so the claim that
waiting plus response markers never forces an empty result is false. -/
theorem c6_counterexample :
    waitingHint "waiting <turbo-frame src=\"/text_polls/a/respond\">" = true ∧
    respondPresent "waiting <turbo-frame src=\"/text_polls/a/respond\">" = true ∧
    telegramExtract "waiting <turbo-frame src=\"/text_polls/a/respond\">"
      = (Option.none, false, Option.none) ∧
    telegramScan "waiting <turbo-frame src=\"/text_polls/a/respond\">"
      = (Option.none, true, Option.none) := by
  decide

/-- C6 amended: the two extractors gate the short-circuit differently.
The phone extractor returns the all-absent result exactly when no id
pattern matched, the waiting hint is present, and no turbo-frame respond
fragment is present — so a respond fragment always defeats its
short-circuit.  The telegram extractor short-circuits exactly when the
waiting hint is present, response markers notwithstanding. -/
theorem c6_short_circuit (html : String) :
    (respondPresent html = true → phoneExtract html = phoneScan html) ∧
    (truthy (phoneFindId html.toList) = false ∧ waitingHint html = true ∧
        respondPresent html = false →
      phoneExtract html = (Option.none, false, Option.none)) ∧
    (waitingHint html = true → telegramExtract html = (Option.none, false, Option.none)) ∧
    (waitingHint html = false → telegramExtract html = telegramScan html) := by
  refine ⟨fun h => ?_, fun h => ?_, fun h => ?_, fun h => ?_⟩
  · simp [phoneExtract, h]
  · obtain ⟨h1, h2, h3⟩ := h
    simp only [String.toList] at h1
    simp [phoneExtract, h1, h2, h3]
  · simp [telegramExtract, h]
  · simp [telegramExtract, h]

/-- C6 witness: at the concrete markup of the counterexample, the phone
extractor does not short-circuit while the telegram extractor does. -/
theorem c6_short_circuit_witness :
    phoneExtract "waiting <turbo-frame src=\"/text_polls/a/respond\">"
      = phoneScan "waiting <turbo-frame src=\"/text_polls/a/respond\">" ∧
    telegramExtract "waiting <turbo-frame src=\"/text_polls/a/respond\">"
      = (Option.none, false, Option.none) := by
  have h := c6_short_circuit "waiting <turbo-frame src=\"/text_polls/a/respond\">"
  exact ⟨h.1 (by decide), h.2.2.1 (by decide)⟩

/-- C3 counterexample: with last_seen_id fixed at 1 and the latch clear,
the telegram engine run on accepting, then not-accepting, then accepting
fires one nowAccepting, not two; the not-accepting tick leaves the latch
set instead of clearing it. -/
theorem c3_counterexample :
    countNowAccepting (runSteps telegramStep
        ⟨some "1", Option.none, Option.none, Option.none⟩
        [(some "1", true), (some "1", false), (some "1", true)]).1 = 1 ∧
    ¬ countNowAccepting (runSteps telegramStep
        ⟨some "1", Option.none, Option.none, Option.none⟩
        [(some "1", true), (some "1", false), (some "1", true)]).1 = 2 ∧
    (runSteps telegramStep ⟨some "1", Option.none, Option.none, Option.none⟩
        [(some "1", true), (some "1", false)]).2.alertedAcceptingForId = some "1" := by
  decide

/-- C4 counterexample: the sms engine, with last_seen_id at 1, treats the
absent-id tick as a plain no-op (no wentDown, nothing cleared), and the
following tick that shows id 1 again decides nothing — identity reuse
after a down period does not re-trigger there. -/
theorem c4_counterexample :
    (runSteps smsStep ⟨some "1", Option.none, Option.none, Option.none⟩
        [(Option.none, false), (some "1", false)]).1
      = [Transition.noChange, Transition.noChange] ∧
    (runSteps smsStep ⟨some "1", Option.none, Option.none, Option.none⟩
        [(Option.none, false), (some "1", false)]).2.lastSeenId = some "1" := by
  decide

/-- C5 counterexample: the phone engine, on a tick whose id changes from 1
to 2 with accepting false, keeps the stale latch value 1; the telegram
engine keeps the latch across the tick on which the activity goes away.
Both contradict the claimed clearing. -/
theorem c5_counterexample :
    (phoneStep ⟨some "1", Option.none, Option.none, some "1"⟩ (some "2") false).1
      = Transition.wentLive ∧
    (phoneStep ⟨some "1", Option.none, Option.none, some "1"⟩
        (some "2") false).2.alertedAcceptingForId = some "1" ∧
    (telegramStep ⟨some "1", Option.none, Option.none, some "1"⟩ Option.none false).1
      = Transition.wentDown ∧
    (telegramStep ⟨some "1", Option.none, Option.none, some "1"⟩
        Option.none false).2.alertedAcceptingForId = some "1" := by
  decide

/-- Helper: last_seen_id after a tick with a truthy id is that id. -/
theorem phoneStep_lastSeen_truthy (st : WatchState) (a : Option String) (acc : Bool)
    (h : truthy a = true) : (phoneStep st a acc).2.lastSeenId = a := by
  simp only [phoneStep, h]
  split_ifs <;> simp_all

/-- Helper: last_seen_id after a tick with a falsy id is absent. -/
theorem phoneStep_lastSeen_falsy (st : WatchState) (a : Option String) (acc : Bool)
    (h : truthy a = false) : (phoneStep st a acc).2.lastSeenId = Option.none := by
  simp only [phoneStep, h]
  split_ifs <;> simp_all

/-- Helper: the latch after a truthy accepting tick is the tick id. -/
theorem phoneStep_alerted_acc (st : WatchState) (a : Option String) (acc : Bool)
    (h : truthy a = true) (ha : acc = true) :
    (phoneStep st a acc).2.alertedAcceptingForId = a := by
  simp only [phoneStep, h, ha]
  split_ifs <;> simp_all

/-- Helper: telegram last_seen_id after a tick with a truthy id. -/
theorem telegramStep_lastSeen_truthy (st : WatchState) (a : Option String) (acc : Bool)
    (h : truthy a = true) : (telegramStep st a acc).2.lastSeenId = a := by
  simp only [telegramStep, h]
  split_ifs <;> simp_all

/-- Helper: telegram last_seen_id after a tick with a falsy id. -/
theorem telegramStep_lastSeen_falsy (st : WatchState) (a : Option String) (acc : Bool)
    (h : truthy a = false) : (telegramStep st a acc).2.lastSeenId = Option.none := by
  simp only [telegramStep, h]
  split_ifs <;> simp_all

/-- Helper: telegram latch after a truthy accepting tick. -/
theorem telegramStep_alerted_acc (st : WatchState) (a : Option String) (acc : Bool)
    (h : truthy a = true) (ha : acc = true) :
    (telegramStep st a acc).2.alertedAcceptingForId = a := by
  simp only [telegramStep, h, ha]
  split_ifs <;> simp_all

/-- Helper: repeating the identical extraction immediately afterwards
decides nothing in the phone engine. -/
theorem phoneStep_again (st : WatchState) (a : Option String) (acc : Bool) :
    (phoneStep (phoneStep st a acc).2 a acc).1 = Transition.noChange := by
  by_cases h : truthy a = true
  · have hls := phoneStep_lastSeen_truthy st a acc h
    cases acc with
    | true =>
      have hal := phoneStep_alerted_acc st a true h rfl
      generalize hq : (phoneStep st a true).2 = st1 at hls hal ⊢
      simp [phoneStep, h, hls, hal]
    | false =>
      generalize hq : (phoneStep st a false).2 = st1 at hls ⊢
      simp only [phoneStep, h, hls]
      split_ifs <;> simp_all
  · have h0 : truthy a = false := by simpa using h
    have hls := phoneStep_lastSeen_falsy st a acc h0
    generalize hq : (phoneStep st a acc).2 = st1 at hls ⊢
    simp [phoneStep, h0, hls]

/-- Helper: repeating the identical extraction immediately afterwards
decides nothing in the telegram engine. -/
theorem telegramStep_again (st : WatchState) (a : Option String) (acc : Bool) :
    (telegramStep (telegramStep st a acc).2 a acc).1 = Transition.noChange := by
  by_cases h : truthy a = true
  · have hls := telegramStep_lastSeen_truthy st a acc h
    cases acc with
    | true =>
      have hal := telegramStep_alerted_acc st a true h rfl
      generalize hq : (telegramStep st a true).2 = st1 at hls hal ⊢
      simp [telegramStep, h, hls, hal]
    | false =>
      generalize hq : (telegramStep st a false).2 = st1 at hls ⊢
      simp only [telegramStep, h, hls]
      split_ifs <;> simp_all
  · have h0 : truthy a = false := by simpa using h
    have hls := telegramStep_lastSeen_falsy st a acc h0
    generalize hq : (telegramStep st a acc).2 = st1 at hls ⊢
    simp [telegramStep, h0, hls]

/-- Helper: a latched id never re-fires nowAccepting in the phone engine. -/
theorem phoneStep_no_refire (st : WatchState) (a : Option String) (acc : Bool)
    (h : st.alertedAcceptingForId = a) :
    (phoneStep st a acc).1 ≠ Transition.nowAccepting := by
  simp only [phoneStep]
  split_ifs <;> simp_all

/-- Helper: a latched id never re-fires nowAccepting in the telegram engine. -/
theorem telegramStep_no_refire (st : WatchState) (a : Option String) (acc : Bool)
    (h : st.alertedAcceptingForId = a) :
    (telegramStep st a acc).1 ≠ Transition.nowAccepting := by
  simp only [telegramStep]
  split_ifs <;> simp_all

/-- Helper: one phone tick leaves the latch cleared, unchanged, or set to
the tick id. -/
theorem phoneStep_alerted_cases (st : WatchState) (a : Option String) (acc : Bool) :
    (phoneStep st a acc).2.alertedAcceptingForId = Option.none ∨
    (phoneStep st a acc).2.alertedAcceptingForId = st.alertedAcceptingForId ∨
    (phoneStep st a acc).2.alertedAcceptingForId = a := by
  simp only [phoneStep]
  split_ifs <;> simp_all

/-- Helper: one telegram tick leaves the latch cleared, unchanged, or set
to the tick id. -/
theorem telegramStep_alerted_cases (st : WatchState) (a : Option String) (acc : Bool) :
    (telegramStep st a acc).2.alertedAcceptingForId = Option.none ∨
    (telegramStep st a acc).2.alertedAcceptingForId = st.alertedAcceptingForId ∨
    (telegramStep st a acc).2.alertedAcceptingForId = a := by
  simp only [telegramStep]
  split_ifs <;> simp_all

/-- Helper: over any phone run the final latch is absent, the initial
latch, or an id observed on some tick. -/
theorem runSteps_alerted_phone (es : List (Option String × Bool)) (st : WatchState) :
    (runSteps phoneStep st es).2.alertedAcceptingForId = Option.none ∨
    (runSteps phoneStep st es).2.alertedAcceptingForId = st.alertedAcceptingForId ∨
    ∃ e ∈ es, e.1 = (runSteps phoneStep st es).2.alertedAcceptingForId := by
  induction es generalizing st with
  | nil => simp [runSteps]
  | cons e es ih =>
    simp only [runSteps]
    rcases ih (phoneStep st e.1 e.2).2 with h | h | h
    · exact Or.inl h
    · rcases phoneStep_alerted_cases st e.1 e.2 with g | g | g
      · exact Or.inl (h.trans g)
      · exact Or.inr (Or.inl (h.trans g))
      · refine Or.inr (Or.inr ⟨e, by simp, ?_⟩)
        rw [h, g]
    · obtain ⟨e2, hmem, heq⟩ := h
      exact Or.inr (Or.inr ⟨e2, by simp [hmem], heq⟩)

/-- Helper: over any telegram run the final latch is absent, the initial
latch, or an id observed on some tick. -/
theorem runSteps_alerted_telegram (es : List (Option String × Bool)) (st : WatchState) :
    (runSteps telegramStep st es).2.alertedAcceptingForId = Option.none ∨
    (runSteps telegramStep st es).2.alertedAcceptingForId = st.alertedAcceptingForId ∨
    ∃ e ∈ es, e.1 = (runSteps telegramStep st es).2.alertedAcceptingForId := by
  induction es generalizing st with
  | nil => simp [runSteps]
  | cons e es ih =>
    simp only [runSteps]
    rcases ih (telegramStep st e.1 e.2).2 with h | h | h
    · exact Or.inl h
    · rcases telegramStep_alerted_cases st e.1 e.2 with g | g | g
      · exact Or.inl (h.trans g)
      · exact Or.inr (Or.inl (h.trans g))
      · refine Or.inr (Or.inr ⟨e, by simp, ?_⟩)
        rw [h, g]
    · obtain ⟨e2, hmem, heq⟩ := h
      exact Or.inr (Or.inr ⟨e2, by simp [hmem], heq⟩)

/-- Helper: a falsy-id phone tick while an id was seen decides wentDown
and clears the latch. -/
theorem phoneStep_down_clears (st : WatchState) (a : Option String) (acc : Bool)
    (h : truthy a = false) (hls : st.lastSeenId ≠ Option.none) :
    (phoneStep st a acc).1 = Transition.wentDown ∧
    (phoneStep st a acc).2.alertedAcceptingForId = Option.none := by
  have hb : (st.lastSeenId == Option.none) = false := beq_eq_false_iff_ne.mpr hls
  simp [phoneStep, h, hb]

/-- Helper: a falsy-id telegram tick never touches the latch. -/
theorem telegramStep_down_keeps (st : WatchState) (a : Option String) (acc : Bool)
    (h : truthy a = false) :
    (telegramStep st a acc).2.alertedAcceptingForId = st.alertedAcceptingForId := by
  simp only [telegramStep, h]
  split_ifs <;> simp_all

/-- Helper: a phone wentLive tick with accepting false keeps whatever the
latch held before. -/
theorem phoneStep_live_keeps (st : WatchState) (a : Option String)
    (h : (phoneStep st a false).1 = Transition.wentLive) :
    (phoneStep st a false).2.alertedAcceptingForId = st.alertedAcceptingForId := by
  simp only [phoneStep] at h ⊢
  split_ifs at h ⊢ <;> simp_all

/-- C1: whenever the extracted id is present (a nonempty string) and
differs from the prior last_seen_id, the phone and telegram engines both
decide wentLive, send exactly one alert for the tick, update last_seen_id
to the new id, and, when accepting also holds, latch
alerted_accepting_for_id to the new id within the same tick. -/
theorem c1_went_live (st : WatchState) (i : String) (acc : Bool)
    (h1 : i ≠ "") (h2 : st.lastSeenId ≠ some i) :
    (phoneStep st (some i) acc).1 = Transition.wentLive ∧
    alertsSent (phoneStep st (some i) acc).1 = 1 ∧
    (phoneStep st (some i) acc).2.lastSeenId = some i ∧
    (acc = true → (phoneStep st (some i) acc).2.alertedAcceptingForId = some i) ∧
    (telegramStep st (some i) acc).1 = Transition.wentLive ∧
    alertsSent (telegramStep st (some i) acc).1 = 1 ∧
    (telegramStep st (some i) acc).2.lastSeenId = some i ∧
    (acc = true → (telegramStep st (some i) acc).2.alertedAcceptingForId = some i) := by
  have hne : ((some i : Option String) == st.lastSeenId) = false := by
    rw [beq_eq_false_iff_ne]
    exact fun h => h2 h.symm
  cases acc <;> simp [phoneStep, telegramStep, alertsSent, truthy, h1, hne]

/-- C1 witness: a fresh id 42 against an empty prior state goes live in
both engines and latches the accepting alert in the same tick. -/
theorem c1_went_live_witness :
    (phoneStep ⟨Option.none, Option.none, Option.none, Option.none⟩ (some "42") true).1
      = Transition.wentLive ∧
    (phoneStep ⟨Option.none, Option.none, Option.none, Option.none⟩
        (some "42") true).2.alertedAcceptingForId = some "42" ∧
    (telegramStep ⟨Option.none, Option.none, Option.none, Option.none⟩
        (some "42") true).1 = Transition.wentLive := by
  have h := c1_went_live ⟨Option.none, Option.none, Option.none, Option.none⟩ "42" true
    (by decide) (by decide)
  exact ⟨h.1, h.2.2.2.1 rfl, h.2.2.2.2.1⟩

/-- C3 amended: with the id fixed at the prior last_seen_id and the latch
not pointing at it, the phone engine runs
accepting / not-accepting / accepting to exactly two nowAccepting alerts,
with the middle tick deciding nothing and clearing the latch; the telegram
engine leaves the latch set across the middle tick and therefore fires
exactly one nowAccepting for the same sequence. -/
theorem c3_rearm (st : WatchState) (i : String)
    (h1 : i ≠ "") (h2 : st.lastSeenId = some i)
    (h3 : st.alertedAcceptingForId ≠ some i) :
    (runSteps phoneStep st [(some i, true), (some i, false), (some i, true)]).1
      = [Transition.nowAccepting, Transition.noChange, Transition.nowAccepting] ∧
    countNowAccepting (runSteps phoneStep st
        [(some i, true), (some i, false), (some i, true)]).1 = 2 ∧
    (runSteps phoneStep st [(some i, true), (some i, false)]).2.alertedAcceptingForId
      = Option.none ∧
    (runSteps telegramStep st [(some i, true), (some i, false), (some i, true)]).1
      = [Transition.nowAccepting, Transition.noChange, Transition.noChange] ∧
    countNowAccepting (runSteps telegramStep st
        [(some i, true), (some i, false), (some i, true)]).1 = 1 ∧
    (runSteps telegramStep st [(some i, true), (some i, false)]).2.alertedAcceptingForId
      = some i := by
  have hb : (st.alertedAcceptingForId == some i) = false := beq_eq_false_iff_ne.mpr h3
  simp [runSteps, phoneStep, telegramStep, countNowAccepting, truthy, h1, h2, hb]

/-- C3 witness: the re-arm sequence at id 1 from a clear latch yields two
nowAccepting decisions in the phone engine and one in the telegram
engine. -/
theorem c3_rearm_witness :
    countNowAccepting (runSteps phoneStep
        ⟨some "1", Option.none, Option.none, Option.none⟩
        [(some "1", true), (some "1", false), (some "1", true)]).1 = 2 ∧
    countNowAccepting (runSteps telegramStep
        ⟨some "1", Option.none, Option.none, Option.none⟩
        [(some "1", true), (some "1", false), (some "1", true)]).1 = 1 := by
  have h := c3_rearm ⟨some "1", Option.none, Option.none, Option.none⟩ "1"
    (by decide) rfl (by decide)
  exact ⟨h.2.1, h.2.2.2.2.1⟩

/-- C4 amended: with last_seen_id at a nonempty id, an absent-id tick
decides wentDown in the phone engine (clearing both last_seen_id and the
latch) and in the telegram engine (clearing last_seen_id only, keeping the
latch), and in both a following tick that shows the same id again decides
a fresh wentLive; the sms engine instead treats the absent-id tick as a
complete no-op, so the same id never re-triggers wentLive there. -/
theorem c4_down_up (st : WatchState) (i : String) (accDown accUp : Bool)
    (h1 : i ≠ "") (h2 : st.lastSeenId = some i) :
    (phoneStep st Option.none accDown).1 = Transition.wentDown ∧
    (phoneStep st Option.none accDown).2.lastSeenId = Option.none ∧
    (phoneStep st Option.none accDown).2.alertedAcceptingForId = Option.none ∧
    (phoneStep (phoneStep st Option.none accDown).2 (some i) accUp).1
      = Transition.wentLive ∧
    (telegramStep st Option.none accDown).1 = Transition.wentDown ∧
    (telegramStep st Option.none accDown).2.lastSeenId = Option.none ∧
    (telegramStep st Option.none accDown).2.alertedAcceptingForId
      = st.alertedAcceptingForId ∧
    (telegramStep (telegramStep st Option.none accDown).2 (some i) accUp).1
      = Transition.wentLive ∧
    smsStep st Option.none accDown = (Transition.noChange, st) ∧
    (smsStep (smsStep st Option.none accDown).2 (some i) accUp).1
      ≠ Transition.wentLive := by
  refine ⟨?_, ?_, ?_, ?_, ?_, ?_, ?_, ?_, ?_, ?_⟩
  all_goals simp [phoneStep, telegramStep, smsStep, truthy, h1, h2]
  all_goals split_ifs <;> simp_all

/-- C4 witness: at id 1 the phone engine decides wentDown then a fresh
wentLive, while the sms engine never re-decides wentLive. -/
theorem c4_down_up_witness :
    (phoneStep ⟨some "1", Option.none, Option.none, Option.none⟩ Option.none false).1
      = Transition.wentDown ∧
    (phoneStep (phoneStep ⟨some "1", Option.none, Option.none, Option.none⟩
        Option.none false).2 (some "1") false).1 = Transition.wentLive ∧
    (smsStep (smsStep ⟨some "1", Option.none, Option.none, Option.none⟩
        Option.none false).2 (some "1") false).1 ≠ Transition.wentLive := by
  have h := c4_down_up ⟨some "1", Option.none, Option.none, Option.none⟩ "1" false false
    (by decide) rfl
  exact ⟨h.1, h.2.2.2.1, h.2.2.2.2.2.2.2.2.2⟩

/-- C5 amended: over any run of either engine, a set latch equals the
initially persisted value or an id observed on some tick; the phone engine
clears the latch on every tick where the activity goes away while an id
was seen, and on an accepting tick overwrites it with the current id, but
on a wentLive identity change with accepting false it retains the previous
value; the telegram engine never touches the latch on an absent-id tick. -/
theorem c5_latch (st : WatchState) (es : List (Option String × Bool))
    (a : Option String) (acc : Bool) :
    ((runSteps phoneStep st es).2.alertedAcceptingForId = Option.none ∨
     (runSteps phoneStep st es).2.alertedAcceptingForId = st.alertedAcceptingForId ∨
     ∃ e ∈ es, e.1 = (runSteps phoneStep st es).2.alertedAcceptingForId) ∧
    ((runSteps telegramStep st es).2.alertedAcceptingForId = Option.none ∨
     (runSteps telegramStep st es).2.alertedAcceptingForId = st.alertedAcceptingForId ∨
     ∃ e ∈ es, e.1 = (runSteps telegramStep st es).2.alertedAcceptingForId) ∧
    (truthy a = false → st.lastSeenId ≠ Option.none →
      (phoneStep st a acc).1 = Transition.wentDown ∧
      (phoneStep st a acc).2.alertedAcceptingForId = Option.none) ∧
    (truthy a = false →
      (telegramStep st a acc).2.alertedAcceptingForId = st.alertedAcceptingForId) ∧
    (truthy a = true → acc = true →
      (phoneStep st a acc).2.alertedAcceptingForId = a ∧
      (telegramStep st a acc).2.alertedAcceptingForId = a) ∧
    ((phoneStep st a false).1 = Transition.wentLive →
      (phoneStep st a false).2.alertedAcceptingForId = st.alertedAcceptingForId) :=
  ⟨runSteps_alerted_phone es st, runSteps_alerted_telegram es st,
   fun h hls => phoneStep_down_clears st a acc h hls,
   fun h => telegramStep_down_keeps st a acc h,
   fun h ha => ⟨phoneStep_alerted_acc st a acc h ha, telegramStep_alerted_acc st a acc h ha⟩,
   fun h => phoneStep_live_keeps st a h⟩

/-- C5 witness: at a latched state with id 1, the absent-id tick clears
the latch in the phone engine and keeps it in the telegram engine. -/
theorem c5_latch_witness :
    (phoneStep ⟨some "1", Option.none, Option.none, some "1"⟩ Option.none false).1
      = Transition.wentDown ∧
    (phoneStep ⟨some "1", Option.none, Option.none, some "1"⟩
        Option.none false).2.alertedAcceptingForId = Option.none ∧
    (telegramStep ⟨some "1", Option.none, Option.none, some "1"⟩
        Option.none false).2.alertedAcceptingForId = some "1" := by
  have h := c5_latch ⟨some "1", Option.none, Option.none, some "1"⟩ [] Option.none false
  exact ⟨(h.2.2.1 rfl (by decide)).1, (h.2.2.1 rfl (by decide)).2, h.2.2.2.1 rfl⟩

/-- C8: processing the identical extraction twice in a row decides nothing
on the second tick (so at most one wentLive and zero further alerts), and
a latch already equal to the tick id rules out a nowAccepting decision, in
the phone and telegram engines alike. -/
theorem c8_duplicate_ticks (st : WatchState) (a : Option String) (acc : Bool) :
    (phoneStep (phoneStep st a acc).2 a acc).1 = Transition.noChange ∧
    (telegramStep (telegramStep st a acc).2 a acc).1 = Transition.noChange ∧
    (st.alertedAcceptingForId = a → (phoneStep st a acc).1 ≠ Transition.nowAccepting) ∧
    (st.alertedAcceptingForId = a → (telegramStep st a acc).1 ≠ Transition.nowAccepting) :=
  ⟨phoneStep_again st a acc, telegramStep_again st a acc,
   fun h => phoneStep_no_refire st a acc h,
   fun h => telegramStep_no_refire st a acc h⟩

/-- C8 witness: duplicating an accepting tick at id 1 from a latched state
decides nothing twice over and never re-fires nowAccepting. -/
theorem c8_duplicate_ticks_witness :
    (phoneStep (phoneStep ⟨some "1", Option.none, Option.none, some "1"⟩
        (some "1") true).2 (some "1") true).1 = Transition.noChange ∧
    (phoneStep ⟨some "1", Option.none, Option.none, some "1"⟩ (some "1") true).1
      ≠ Transition.nowAccepting ∧
    (telegramStep ⟨some "1", Option.none, Option.none, some "1"⟩ (some "1") true).1
      ≠ Transition.nowAccepting := by
  have h := c8_duplicate_ticks ⟨some "1", Option.none, Option.none, some "1"⟩
    (some "1") true
  exact ⟨h.1, h.2.2.1 rfl, h.2.2.2 rfl⟩

/-- C9: the monitor id is the fixed digest of the (target, recipient)
pair, and a start for a pair whose monitor id is already registered with
running status returns the conflict error, leaves the registry unchanged,
and spawns no second watch thread. -/
theorem c9_duplicate_start (monitors : List (String × MonitorInfo))
    (url phone : String) (info : MonitorInfo)
    (h1 : ¬ pyStrip url = "") (h2 : ¬ pyStrip phone = "")
    (h3 : strStartsWith (pyStrip url) "http" = true)
    (h4 : regGet monitors (monitorId (pyStrip url) (pyStrip phone)) = some info)
    (h5 : info.status = "running") :
    startMonitor monitors url phone =
      ⟨StartResult.conflict "Monitor already exists for this URL and phone number",
        monitors, false⟩ ∧
    monitorId (pyStrip url) (pyStrip phone)
      = md5Hex12 (pyStrip url ++ pyStrip phone) := by
  constructor
  · simp [startMonitor, h1, h2, h3, h4, h5]
  · rfl

/-- C9 witness: the scenario of two starts in a row — the first start is
registered and marked running by its thread, and the identical second
start is rejected with the conflict error while the registry keeps its
single entry for that key. -/
theorem c9_duplicate_start_witness :
    startMonitor (markRunning (startMonitor [] "http://pe.app/x" "+1555").monitors
        (monitorId "http://pe.app/x" "+1555")) "http://pe.app/x" "+1555" =
      ⟨StartResult.conflict "Monitor already exists for this URL and phone number",
        markRunning (startMonitor [] "http://pe.app/x" "+1555").monitors
          (monitorId "http://pe.app/x" "+1555"), false⟩ := by
  exact (c9_duplicate_start
    (markRunning (startMonitor [] "http://pe.app/x" "+1555").monitors
      (monitorId "http://pe.app/x" "+1555"))
    "http://pe.app/x" "+1555" ⟨"http://pe.app/x", "+1555", "running"⟩
    (by decide) (by decide) (by decide) (by decide) rfl).1
